import Mathlib

/-!
Verification development for the fiozap webhook outbox / dispatcher and the
session connection registry.

The definitions below are a shallow embedding of the Go source:
  * `internal/database/repository` (WebhookRepository: Create / GetPending /
    MarkSent / MarkFailed; SessionRepository: UpdateConnected / UpdateJID /
    GetConnectedSessions),
  * `internal/webhook/dispatcher.go` (processPending / processEvent /
    sendWebhook / shouldSendEvent),
  * `internal/webhook/sender.go` (Sender.Send, WebhookPayload),
  * `internal/service/session.go` (Connect / handleEvent / ReconnectAll).

Conventions of the embedding:
  * JSON payloads (Go `json.RawMessage` / `interface\x7b\x7d`) are modelled by the
    inductive `Json` value they parse to; `json.Marshal` / `json.Unmarshal`
    round-trips are the identity at this level.
  * Timestamps are unix seconds as `Int` (`CreatedAt.Unix()`), row ids are `Nat`.
  * The `lastAttempt` column is written by MarkSent/MarkFailed in the source but
    never read by any code path under verification, so it is not modelled.
  * External effects (HTTP responses, the whatsmeow adapter construction and
    connection results, database insert failures) are supplied as explicit
    oracle parameters; the functions under verification are otherwise exactly
    the source's control flow.
-/

namespace FioZap

/-- Parsed JSON values, the model of Go `interface\x7b\x7d` data decoded from
`json.RawMessage` payload bytes. -/
inductive Json where
  | null : Json
  | bool : Bool → Json
  | num : Int → Json
  | str : String → Json
  | arr : List Json → Json
  | obj : List (String × Json) → Json

/-- Webhook row status: the `status` column of `fzWebhook`,
one of `pending`, `sent`, `failed`. -/
inductive WStatus where
  | pending : WStatus
  | sent : WStatus
  | failed : WStatus
deriving DecidableEq, Repr

/-- A row of the `fzWebhook` table (Go `repository.WebhookEvent`).
`payload` is the parsed JSON of the raw payload bytes; `createdAt` is the
unix-seconds value of the `createdAt` timestamp. -/
structure WebhookEvent where
  id : Nat
  userID : String
  sessionID : String
  eventType : String
  payload : Json
  status : WStatus
  attempts : Nat
  createdAt : Int

/-- A row of the `fzSession` table (Go `model.Session`). `connected` mirrors
the 0/1 INTEGER column. -/
structure Session where
  id : String
  userID : String
  name : String
  jid : String
  qrCode : String
  connected : Nat
  webhook : String
  events : String
  proxyUrl : String
deriving DecidableEq

/-- The retry cap: `GetPending` fetches rows with `attempts < 3` and
`MarkFailed` turns a row failed once attempts reach this value. -/
def attemptsCap : Nat := 3

/-- The `WHERE` predicate of `WebhookRepository.GetPending`:
`status = 'pending' AND attempts < 3`. A row is fetched by the dispatcher's
poll iff this holds. -/
def isPendingFetch (e : WebhookEvent) : Bool :=
  e.status == WStatus.pending && decide (e.attempts < attemptsCap)

/-- A terminal row: `status` is `sent` or `failed`. -/
def isTerminal (e : WebhookEvent) : Bool :=
  e.status == WStatus.sent || e.status == WStatus.failed

/-- Go `WebhookRepository.MarkSent`: sets `status = 'sent'`, touching nothing
else (besides the unmodelled `lastAttempt` timestamp). -/
def markSent (e : WebhookEvent) : WebhookEvent :=
  { e with status := WStatus.sent }

/-- Go `WebhookRepository.MarkFailed`: the SQL
`SET attempts = attempts + 1, status = CASE WHEN attempts >= 2 THEN 'failed'
ELSE 'pending' END`; both right-hand sides read the pre-update `attempts`. -/
def markFailed (e : WebhookEvent) : WebhookEvent :=
  { e with
    attempts := e.attempts + 1,
    status := if 2 ≤ e.attempts then WStatus.failed else WStatus.pending }

/-- Go `WebhookRepository.Create`: a freshly inserted row has
`status = 'pending'` and `attempts = 0`, carrying the caller's
owner / session / event type / payload verbatim. -/
def mkPendingRow (id : Nat) (userID sessionID eventType : String)
    (payload : Json) (now : Int) : WebhookEvent :=
  { id := id, userID := userID, sessionID := sessionID,
    eventType := eventType, payload := payload,
    status := WStatus.pending, attempts := 0, createdAt := now }

/-- Dispatcher constant `sendTimeout = 10 * time.Second`, in seconds. -/
def sendTimeoutSeconds : Nat := 10

/-- The outcome of one HTTP POST: either a transport error with no response,
or a response with the given status code. -/
inductive SendOutcome where
  | netError : SendOutcome
  | response : Nat → SendOutcome
deriving DecidableEq, Repr

/-- Go `Sender.Send` returns nil exactly when the POST got a response whose
status is strictly below 400 (`resp.StatusCode >= http.StatusBadRequest`
is the error branch). -/
def sendOk : SendOutcome → Bool
  | SendOutcome.netError => false
  | SendOutcome.response st => decide (st < 400)

/-- Go `sender.go` struct `WebhookPayload`: serialized with json tags
`event`, `timestamp`, `data`. -/
structure WebhookPayload where
  event : String
  timestamp : Int
  data : Json

/-- Go `json.Marshal` of a `WebhookPayload`: the object
with keys `event`, `timestamp`, `data` in struct order. -/
def payloadJson (p : WebhookPayload) : Json :=
  Json.obj [("event", Json.str p.event),
            ("timestamp", Json.num p.timestamp),
            ("data", p.data)]

/-- The HTTP request `Sender.Send` issues: a POST to the given url with the
marshalled payload body, `Content-Type: application/json`, the fixed
`User-Agent: FioZap-Webhook/1.0`, under the caller-provided timeout. -/
structure HttpRequest where
  method : String
  url : String
  body : Json
  contentType : String
  userAgent : String
  timeoutSeconds : Nat

/-- The request built by `Sender.Send` for one delivery attempt. -/
def buildRequest (url : String) (p : WebhookPayload) : HttpRequest :=
  { method := "POST", url := url, body := payloadJson p,
    contentType := "application/json", userAgent := "FioZap-Webhook/1.0",
    timeoutSeconds := sendTimeoutSeconds }

/-- Go `strings.Split(s, ",")` for the single-character separator: split
the character list at every comma; the empty string yields `[""]` and a
trailing comma yields a trailing empty element, as in Go. -/
def splitCommaChars : List Char → List (List Char)
  | [] => [[]]
  | c :: rest =>
    if c = ',' then [] :: splitCommaChars rest
    else
      match splitCommaChars rest with
      | [] => [[c]]
      | g :: gs => (c :: g) :: gs

/-- Go `strings.Split(s, ",")` on strings. -/
def splitComma (s : String) : List String :=
  (splitCommaChars s.data).map (fun cs => String.mk cs)

/-- Go `Dispatcher.shouldSendEvent`: false on an empty subscription string,
else true iff some comma-separated element equals `"All"` or the event
type. -/
def shouldSendEvent (subscribedEvents eventType : String) : Bool :=
  if subscribedEvents = "" then false
  else (splitComma subscribedEvents).any (fun e => e == "All" || e == eventType)

/-- The session's subscribed-event set as a list: empty for the empty
string, else the comma-separated elements. -/
def subscribedSet (s : String) : List String :=
  if s = "" then [] else splitComma s

/-- Go `Dispatcher.sendWebhook`: unmarshal the payload, build the
`WebhookPayload` with `Timestamp = event.CreatedAt.Unix()`, POST it, and
mark the row sent on success, else MarkFailed. Returns the updated row and
the (single) HTTP request issued. -/
def sendWebhook (outcome : SendOutcome) (e : WebhookEvent) (url : String) :
    WebhookEvent × List HttpRequest :=
  let req := buildRequest url
    { event := e.eventType, timestamp := e.createdAt, data := e.payload }
  if sendOk outcome then (markSent e, [req]) else (markFailed e, [req])

/-- Environment of one dispatcher poll, for one row: how
`SessionRepository.GetByID` resolves the row's session (`none` models the
query error path) and what the HTTP POST would return if issued. -/
structure PollEnv where
  resolve : String → Option Session
  outcome : SendOutcome

/-- Go `Dispatcher.processEvent`: empty session id → MarkFailed; unresolvable
session → MarkFailed; session without webhook URL → MarkFailed; event type
not subscribed → MarkSent without an HTTP call; else one delivery attempt
via `sendWebhook`. Returns the updated row and the HTTP requests issued. -/
def processEvent (resolve : String → Option Session) (outcome : SendOutcome)
    (e : WebhookEvent) : WebhookEvent × List HttpRequest :=
  if e.sessionID = "" then (markFailed e, [])
  else
    match resolve e.sessionID with
    | none => (markFailed e, [])
    | some s =>
      if s.webhook = "" then (markFailed e, [])
      else if shouldSendEvent s.events e.eventType then
        sendWebhook outcome e s.webhook
      else (markSent e, [])

/-- One dispatcher poll as seen by a single row: `processPending` only
processes rows returned by `GetPending`, so a row not matching the fetch
predicate is untouched. -/
def dispatchStep (env : PollEnv) (e : WebhookEvent) : WebhookEvent × List HttpRequest :=
  if isPendingFetch e then processEvent env.resolve env.outcome e else (e, [])

/-- The row after a sequence of dispatcher polls. -/
def runPolls (envs : List PollEnv) (e : WebhookEvent) : WebhookEvent :=
  envs.foldl (fun acc env => (dispatchStep env acc).1) e

/-! ## Connection registry (`internal/service/session.go`) -/

/-- A live wameow client handle as observed by the registry: the values its
`IsConnected()` / `IsLoggedIn()` / `GetJID()` calls report. -/
structure Handle where
  connected : Bool
  loggedIn : Bool
  jid : String
deriving DecidableEq, Repr

/-- Go `SessionService.clientKey`: `fmt.Sprintf s u ":" sessionID`. -/
def clientKey (userID sessionID : String) : String :=
  userID ++ ":" ++ sessionID

/-- The in-memory `clients` map of `SessionService`, keyed by
`clientKey userID sessionID`. -/
abbrev Registry := List (String × Handle)

/-- Go map read `s.clients[key]`: the handle registered at the key, if any. -/
def lookupClient : Registry → String → Option Handle
  | [], _ => none
  | (k, h) :: rest, key => if k = key then some h else lookupClient rest key

/-- Go map write `s.clients[key] = client`: replace the entry at the key if
present, else append a new one. -/
def setClient : Registry → String → Handle → Registry
  | [], key, h => [(key, h)]
  | (k, h0) :: rest, key, h =>
    if k = key then (key, h) :: rest else (k, h0) :: setClient rest key h

/-- The persisted session-store table, rows keyed by session `id`. -/
abbrev Store := List Session

/-- Go `SessionRepository.UpdateConnected`: set the `connected` column of the
row with the given id. -/
def updateConnected (store : Store) (id : String) (c : Nat) : Store :=
  store.map (fun s => if s.id = id then { s with connected := c } else s)

/-- Go `SessionRepository.UpdateJID`: set the `jid` column of the row with the
given id. -/
def updateJID (store : Store) (id j : String) : Store :=
  store.map (fun s => if s.id = id then { s with jid := j } else s)

/-- The first (under a unique primary key: the only) row with the given id. -/
def rowOf : Store → String → Option Session
  | [], _ => none
  | s :: rest, id => if s.id = id then some s else rowOf rest id

/-- Go `SessionRepository.GetConnectedSessions`: the rows with `connected = 1`. -/
def connectedSessions (store : Store) : List Session :=
  store.filter (fun s => s.connected == 1)

/-- The mutable state `SessionService.Connect` touches: the in-memory
clients map and the persisted session rows. -/
structure ServiceState where
  clients : Registry
  store : Store

/-- The error cases of `SessionService.Connect`. -/
inductive ConnectError where
  | alreadyConnected : ConnectError
  | createClientFailed : ConnectError
  | connectFailed : ConnectError
deriving DecidableEq, Repr

/-- The adapter-side outcome of one Connect call: what `wameow.NewClient`
produces (`none` models its error return) and whether `client.Connect(ctx)`
succeeds. The `Handle` carries what the new client reports after
connecting. -/
structure ConnectEnv where
  newClient : Option Handle
  connectOk : Bool
deriving DecidableEq, Repr

/-- Go `client.IsConnected()` through an optional map entry: absent ⇒ false. -/
def handleIsConnected : Option Handle → Bool
  | none => false
  | some h => h.connected

/-- Go `SessionService.Connect`: under the lock, fail if the existing handle at
the key reports connected; create the client (may fail); connect it (may
fail); on success store the handle at the key (replacing any entry),
set the session row `connected = 1`, and if the client is logged in write
its JID. Returns the new state and the error, if any. -/
def connect (env : ConnectEnv) (st : ServiceState) (userID : String)
    (sess : Session) : ServiceState × Option ConnectError :=
  let key := clientKey userID sess.id
  if handleIsConnected (lookupClient st.clients key) then
    (st, some ConnectError.alreadyConnected)
  else
    match env.newClient with
    | none => (st, some ConnectError.createClientFailed)
    | some h =>
      if env.connectOk then
        let clients := setClient st.clients key h
        let store1 := updateConnected st.store sess.id 1
        let store2 := if h.loggedIn then updateJID store1 sess.id h.jid else store1
        ({ clients := clients, store := store2 }, none)
      else (st, some ConnectError.connectFailed)

/-- The error `connect` returns, as a function of the adapter outcomes and
the handle currently registered at the key. -/
def connectErr (env : ConnectEnv) (existing : Option Handle) : Option ConnectError :=
  if handleIsConnected existing then some ConnectError.alreadyConnected
  else
    match env.newClient with
    | none => some ConnectError.createClientFailed
    | some _ => if env.connectOk then none else some ConnectError.connectFailed

/-- One iteration of `SessionService.ReconnectAll`: attempt `Connect` for
the session; if it errors, clear the session row's `connected` flag. -/
def reconnectStep (envf : String → ConnectEnv) (st : ServiceState)
    (sess : Session) : ServiceState :=
  let r := connect (envf sess.id) st sess.userID sess
  match r.2 with
  | some _ => { r.1 with store := updateConnected r.1.store sess.id 0 }
  | none => r.1

/-- Go `SessionService.ReconnectAll`: snapshot the sessions persisted with
`connected = 1` and attempt one `Connect` per session (the goroutines
serialize on the registry lock; the fold order stands for one such
serialization). -/
def reconnectAll (envf : String → ConnectEnv) (st : ServiceState) : ServiceState :=
  (connectedSessions st.store).foldl (reconnectStep envf) st

/-- The session row after one `ReconnectAll` attempt for it, as a function
of the adapter outcome and the handle previously registered at its key:
on any connect error the row's `connected` flag is cleared; on success it
is set, and the JID is written when the new client is logged in. -/
def reconnectOutcomeRow (env : ConnectEnv) (existing : Option Handle)
    (row : Session) : Session :=
  match connectErr env existing with
  | some _ => { row with connected := 0 }
  | none =>
    match env.newClient with
    | some h =>
      if h.loggedIn then { row with connected := 1, jid := h.jid }
      else { row with connected := 1 }
    | none => row

/-- The registry entry at a session's key after one `ReconnectAll` attempt
for it: unchanged on error, the new client's handle on success. -/
def reconnectOutcomeClient (env : ConnectEnv) (existing : Option Handle) :
    Option Handle :=
  match connectErr env existing with
  | some _ => existing
  | none => env.newClient

/-! ## Event router (`SessionService.handleEvent`) -/

/-- Field access `dataMap["jid"]` on a decoded JSON object. -/
def lookupField : List (String × Json) → String → Option Json
  | [], _ => none
  | (k, v) :: rest, key => if k = key then some v else lookupField rest key

/-- The Go type assertions `data.(map[string]interface\x7b\x7d)` followed by
`dataMap["jid"].(string)`: the `jid` string field of a JSON object, if
both assertions hold. -/
def jidOf : Json → Option String
  | Json.obj fields =>
    match lookupField fields "jid" with
    | some (Json.str j) => some j
    | _ => none
  | _ => none

/-- The state the event router touches: the webhook outbox table and the
session rows. -/
structure RouterState where
  outbox : List WebhookEvent
  store : Store

/-- Go `SessionService.handleEvent`: if a dispatcher is configured, enqueue the
event through `EnqueueSession` → `WebhookRepository.Create` (`insertOk`
models the insert's error path, which is only logged); then, independently,
a `Connected` event carrying a string `jid` field updates the session's
JID, and a `Disconnected` or `LoggedOut` event clears the `connected`
flag. `id` and `now` are the database-assigned row id and insert time. -/
def handleEvent (dispatcherConfigured insertOk : Bool) (id : Nat) (now : Int)
    (userID sessionID eventType : String) (payload : Json)
    (st : RouterState) : RouterState :=
  let outbox :=
    if dispatcherConfigured && insertOk then
      st.outbox ++ [mkPendingRow id userID sessionID eventType payload now]
    else st.outbox
  let store1 :=
    if eventType = "Connected" then
      match jidOf payload with
      | some j => updateJID st.store sessionID j
      | none => st.store
    else st.store
  let store2 :=
    if eventType = "Disconnected" ∨ eventType = "LoggedOut" then
      updateConnected store1 sessionID 0
    else store1
  { outbox := outbox, store := store2 }

/-! ## Concrete fixtures used by witnesses and counterexamples -/

/-- A session with a webhook URL subscribed to everything. -/
def sampleSession : Session :=
  { id := "s1", userID := "u1", name := "main", jid := "", qrCode := "",
    connected := 1, webhook := "http://x/y", events := "All", proxyUrl := "" }

/-- A resolver that knows only `sampleSession`. -/
def sampleResolve : String → Option Session :=
  fun i => if i = "s1" then some sampleSession else none

/-- A freshly enqueued row with no session id (an orphaned event). -/
def orphanRow : WebhookEvent := mkPendingRow 7 "u1" "" "Message" Json.null 0

/-- A poll environment in which no session resolves. -/
def orphanEnv : PollEnv :=
  { resolve := fun _ => none, outcome := SendOutcome.netError }

/-- A freshly enqueued row for `sampleSession`. -/
def rowMsg : WebhookEvent := mkPendingRow 3 "u1" "s1" "Message" Json.null 100

/-- A poll in which the webhook endpoint answers 200. -/
def env200 : PollEnv :=
  { resolve := sampleResolve, outcome := SendOutcome.response 200 }

/-- A poll in which the webhook endpoint answers 300: not a 2xx status,
yet below 400. -/
def env300 : PollEnv :=
  { resolve := sampleResolve, outcome := SendOutcome.response 300 }

/-- A poll in which the POST fails with a transport error. -/
def envNet : PollEnv :=
  { resolve := sampleResolve, outcome := SendOutcome.netError }

/-- A registered handle that reports not connected. -/
def staleHandle : Handle := { connected := false, loggedIn := false, jid := "" }

/-- A new client handle that reports connected and logged in. -/
def freshHandle : Handle := { connected := true, loggedIn := true, jid := "j1" }

/-- A registered handle that reports connected. -/
def liveHandle : Handle := { connected := true, loggedIn := true, jid := "j0" }

/-- A service state holding a stale (not connected) handle for u1/s1. -/
def stStale : ServiceState :=
  { clients := [(clientKey "u1" "s1", staleHandle)], store := [sampleSession] }

/-- A service state holding a connected handle for u1/s1. -/
def stLive : ServiceState :=
  { clients := [(clientKey "u1" "s1", liveHandle)], store := [sampleSession] }

/-- A service state with an empty registry. -/
def stEmpty : ServiceState := { clients := [], store := [sampleSession] }

/-- An adapter environment in which client creation and connection succeed. -/
def envFresh : ConnectEnv := { newClient := some freshHandle, connectOk := true }

/-- An adapter environment in which `wameow.NewClient` fails. -/
def envNoClient : ConnectEnv := { newClient := none, connectOk := true }

/-- Two persisted-connected sessions used by the ReconnectAll witness. -/
def wsess1 : Session :=
  { id := "a", userID := "u1", name := "one", jid := "", qrCode := "",
    connected := 1, webhook := "", events := "", proxyUrl := "" }

/-- Second ReconnectAll witness session. -/
def wsess2 : Session :=
  { id := "b", userID := "u1", name := "two", jid := "", qrCode := "",
    connected := 1, webhook := "", events := "", proxyUrl := "" }

/-- Initial state for the ReconnectAll witness: both sessions persisted
connected, empty registry. -/
def wstate : ServiceState := { clients := [], store := [wsess1, wsess2] }

/-- Adapter outcomes for the ReconnectAll witness: session "a" fails to
create its client, session "b" connects fine. -/
def wenvf : String → ConnectEnv :=
  fun i =>
    if i = "a" then { newClient := none, connectOk := true }
    else { newClient := some freshHandle, connectOk := true }

/-! ## Lemmas about the outbox row lifecycle -/

theorem markSent_attempts (e : WebhookEvent) : (markSent e).attempts = e.attempts := rfl

theorem markFailed_attempts (e : WebhookEvent) :
    (markFailed e).attempts = e.attempts + 1 := rfl

theorem processEvent_fst_cases (r : String → Option Session) (o : SendOutcome)
    (e : WebhookEvent) :
    (processEvent r o e).1 = markSent e ∨ (processEvent r o e).1 = markFailed e := by
  unfold processEvent sendWebhook
  by_cases h1 : e.sessionID = ""
  · simp [h1]
  · simp only [h1, if_false]
    cases hres : r e.sessionID with
    | none => simp
    | some s =>
      by_cases h2 : s.webhook = ""
      · simp [h2]
      · by_cases h3 : shouldSendEvent s.events e.eventType
        · by_cases h4 : sendOk o <;> simp [h2, h3, h4]
        · simp [h2, h3]

/-- An orphaned / unresolvable / webhook-less row is handled by MarkFailed
with no HTTP request issued. -/
theorem processEvent_orphan (r : String → Option Session) (o : SendOutcome)
    (e : WebhookEvent)
    (h : e.sessionID = "" ∨ r e.sessionID = none ∨
      (∃ s, r e.sessionID = some s ∧ s.webhook = "")) :
    processEvent r o e = (markFailed e, []) := by
  by_cases hs : e.sessionID = ""
  · simp [processEvent, hs]
  · rcases h with h | h | ⟨s, hres, hw⟩
    · exact absurd h hs
    · simp [processEvent, hs, h]
    · simp [processEvent, hs, hres, hw]

theorem isPendingFetch_iff (e : WebhookEvent) :
    isPendingFetch e = true ↔ e.status = WStatus.pending ∧ e.attempts < attemptsCap := by
  simp [isPendingFetch]

theorem terminal_not_fetched (e : WebhookEvent) (h : isTerminal e = true) :
    isPendingFetch e = false := by
  unfold isTerminal at h
  unfold isPendingFetch
  cases hs : e.status <;> simp [hs] at h ⊢

theorem dispatchStep_terminal (env : PollEnv) (e : WebhookEvent)
    (h : isTerminal e = true) : dispatchStep env e = (e, []) := by
  simp [dispatchStep, terminal_not_fetched e h]

theorem runPolls_cons (env : PollEnv) (envs : List PollEnv) (e : WebhookEvent) :
    runPolls (env :: envs) e = runPolls envs (dispatchStep env e).1 := rfl

theorem runPolls_terminal (envs : List PollEnv) (e : WebhookEvent)
    (h : isTerminal e = true) : runPolls envs e = e := by
  induction envs with
  | nil => rfl
  | cons env envs ih =>
    rw [runPolls_cons, dispatchStep_terminal env e h]
    exact ih

theorem dispatchStep_attempts_le (env : PollEnv) (e : WebhookEvent)
    (h : e.attempts ≤ attemptsCap) :
    (dispatchStep env e).1.attempts ≤ attemptsCap := by
  unfold dispatchStep
  by_cases hf : isPendingFetch e
  · have hlt : e.attempts < attemptsCap := ((isPendingFetch_iff e).mp hf).2
    rcases processEvent_fst_cases env.resolve env.outcome e with hc | hc <;>
      simp [hf, hc, markSent_attempts, markFailed_attempts]
    · exact h
    · exact hlt
  · simp [hf]
    exact h

theorem runPolls_attempts_le (envs : List PollEnv) (e : WebhookEvent)
    (h : e.attempts ≤ attemptsCap) :
    (runPolls envs e).attempts ≤ attemptsCap := by
  induction envs generalizing e with
  | nil => exact h
  | cons env envs ih =>
    rw [runPolls_cons]
    exact ih _ (dispatchStep_attempts_le env e h)

theorem shouldSendEvent_iff (sub t : String) :
    shouldSendEvent sub t = true ↔
      t ∈ subscribedSet sub ∨ "All" ∈ subscribedSet sub := by
  unfold shouldSendEvent subscribedSet
  by_cases h : sub = ""
  · simp [h]
  · simp only [h, if_false, List.any_eq_true, Bool.or_eq_true, beq_iff_eq]
    constructor
    · rintro ⟨x, hx, hAll | ht⟩
      · subst hAll
        exact Or.inr hx
      · subst ht
        exact Or.inl hx
    · rintro (ht | hAll)
      · exact ⟨t, ht, Or.inr rfl⟩
      · exact ⟨"All", hAll, Or.inl rfl⟩

theorem sendWebhook_snd (o : SendOutcome) (e : WebhookEvent) (url : String) :
    (sendWebhook o e url).2 =
      [buildRequest url
        { event := e.eventType, timestamp := e.createdAt, data := e.payload }] := by
  unfold sendWebhook
  by_cases h : sendOk o <;> simp [h]

theorem markFailed_ne_markSent (e : WebhookEvent) : markFailed e ≠ markSent e := by
  intro h
  have h2 := congrArg WebhookEvent.attempts h
  simp [markFailed, markSent] at h2

/-- MarkFailed on a fetched row: the row turns failed exactly when the new
attempts value reaches the cap; below the cap it stays pending and still
matches the pending fetch. -/
theorem markFailed_cap_policy (e : WebhookEvent) (hlt : e.attempts < attemptsCap) :
    ((markFailed e).status = WStatus.failed ↔ e.attempts + 1 = attemptsCap) ∧
    (e.attempts + 1 < attemptsCap →
      (markFailed e).status = WStatus.pending ∧
      isPendingFetch (markFailed e) = true) := by
  have hlt3 : e.attempts < 3 := hlt
  constructor
  · by_cases h2 : 2 ≤ e.attempts
    · simp [markFailed, h2, attemptsCap]
      omega
    · simp [markFailed, h2, attemptsCap]
      omega
  · intro hlt2
    have hlt2' : e.attempts + 1 < 3 := hlt2
    have h2 : ¬ 2 ≤ e.attempts := by omega
    refine ⟨by simp [markFailed, h2], ?_⟩
    simp [isPendingFetch, markFailed, h2, attemptsCap]
    omega

/-- C1 counterexample: a pending orphaned row (empty sessionID, attempts 0)
is not terminally failed by its first poll: after the poll it is still
pending with attempts 1, still matches the pending fetch (so later polls
do reprocess it), and no delivery was attempted. -/
theorem orphan_first_poll_counterexample :
    (dispatchStep orphanEnv orphanRow).1.status ≠ WStatus.failed ∧
    (dispatchStep orphanEnv orphanRow).1.status = WStatus.pending ∧
    (dispatchStep orphanEnv orphanRow).1.attempts = 1 ∧
    isPendingFetch (dispatchStep orphanEnv orphanRow).1 = true ∧
    (dispatchStep orphanEnv orphanRow).2 = [] :=
  ⟨by decide, by decide, by decide, by decide, rfl⟩

/-- C1 (amended): a pending fetched row whose sessionID is empty, whose
session does not resolve, or whose session has no webhook URL is handled
with no delivery attempt and goes through MarkFailed: attempts is
incremented and the row turns failed exactly when attempts reaches the cap
of 3; below the cap it stays pending and is fetched again on later polls. -/
theorem orphan_event_retry_policy (env : PollEnv) (e : WebhookEvent)
    (hfetch : isPendingFetch e = true)
    (horphan : e.sessionID = "" ∨ env.resolve e.sessionID = none ∨
      (∃ s, env.resolve e.sessionID = some s ∧ s.webhook = "")) :
    (dispatchStep env e).2 = [] ∧
    (dispatchStep env e).1 = markFailed e ∧
    ((markFailed e).status = WStatus.failed ↔ e.attempts + 1 = attemptsCap) ∧
    (e.attempts + 1 < attemptsCap →
      (markFailed e).status = WStatus.pending ∧
      isPendingFetch (markFailed e) = true) := by
  have hlt : e.attempts < attemptsCap := ((isPendingFetch_iff e).mp hfetch).2
  have hpe := processEvent_orphan env.resolve env.outcome e horphan
  have hds : dispatchStep env e = (markFailed e, []) := by
    simp [dispatchStep, hfetch, hpe]
  have hcap := markFailed_cap_policy e hlt
  exact ⟨by rw [hds], by rw [hds], hcap.1, hcap.2⟩

/-- Witness for `orphan_event_retry_policy` at the concrete orphaned row. -/
theorem orphan_event_retry_policy_witness :
    isPendingFetch orphanRow = true ∧
    (dispatchStep orphanEnv orphanRow).1 = markFailed orphanRow :=
  ⟨by decide,
   (orphan_event_retry_policy orphanEnv orphanRow (by decide) (Or.inl rfl)).2.1⟩

/-- C2: a row's attempts never exceed the cap of 3 under any poll sequence;
a terminal row (sent or failed) is never returned by the pending fetch and
is left exactly unchanged by every later poll; and each poll moves a
pending row monotonically: to sent with attempts unchanged, to failed with
attempts at the cap, or to pending with attempts incremented (or untouched
when the fetch predicate excludes it). -/
theorem webhook_row_invariants (envs : List PollEnv) (env : PollEnv)
    (e : WebhookEvent) (hcap : e.attempts ≤ attemptsCap) :
    (runPolls envs e).attempts ≤ attemptsCap ∧
    (isTerminal e = true → isPendingFetch e = false ∧ runPolls envs e = e) ∧
    (e.status = WStatus.pending →
      ((dispatchStep env e).1.status = WStatus.sent ∧
        (dispatchStep env e).1.attempts = e.attempts) ∨
      ((dispatchStep env e).1.status = WStatus.failed ∧
        (dispatchStep env e).1.attempts = attemptsCap) ∨
      ((dispatchStep env e).1.status = WStatus.pending ∧
        ((dispatchStep env e).1.attempts = e.attempts + 1 ∨
          (dispatchStep env e).1 = e))) := by
  refine ⟨runPolls_attempts_le envs e hcap,
    fun ht => ⟨terminal_not_fetched e ht, runPolls_terminal envs e ht⟩,
    fun hp => ?_⟩
  by_cases hf : isPendingFetch e
  · have hlt : e.attempts < attemptsCap := ((isPendingFetch_iff e).mp hf).2
    have hlt3 : e.attempts < 3 := hlt
    rcases processEvent_fst_cases env.resolve env.outcome e with hc | hc
    · left
      simp [dispatchStep, hf, hc, markSent]
    · by_cases h2 : 2 ≤ e.attempts
      · right; left
        have he2 : e.attempts = 2 := by omega
        simp [dispatchStep, hf, hc, markFailed, h2, attemptsCap, he2]
      · right; right
        simp [dispatchStep, hf, hc, markFailed, h2]
  · right; right
    simp [dispatchStep, hf, hp]

/-- Witness for `webhook_row_invariants` at a concrete created row. -/
theorem webhook_row_invariants_witness :
    (mkPendingRow 1 "u1" "s1" "Message" Json.null 0).attempts ≤ attemptsCap ∧
    (runPolls [envNet] (mkPendingRow 1 "u1" "s1" "Message" Json.null 0)).attempts
      ≤ attemptsCap :=
  ⟨by decide,
   (webhook_row_invariants [envNet] envNet
     (mkPendingRow 1 "u1" "s1" "Message" Json.null 0) (by decide)).1⟩

/-- C4: for a fetched pending row whose session resolves with a webhook URL
configured, an HTTP request is issued iff the subscribed set contains the
event's type or the wildcard "All"; when it contains neither the row is
marked sent with zero HTTP calls. -/
theorem delivery_filter (env : PollEnv) (e : WebhookEvent) (s : Session)
    (hfetch : isPendingFetch e = true)
    (hsid : e.sessionID ≠ "")
    (hres : env.resolve e.sessionID = some s)
    (hurl : s.webhook ≠ "") :
    ((dispatchStep env e).2 ≠ [] ↔
      e.eventType ∈ subscribedSet s.events ∨ "All" ∈ subscribedSet s.events) ∧
    (¬(e.eventType ∈ subscribedSet s.events ∨ "All" ∈ subscribedSet s.events) →
      dispatchStep env e = (markSent e, []) ∧
      (markSent e).status = WStatus.sent ∧
      (markSent e).attempts = e.attempts) := by
  by_cases hsend : shouldSendEvent s.events e.eventType
  · have hmem := (shouldSendEvent_iff s.events e.eventType).mp hsend
    have hds : dispatchStep env e = sendWebhook env.outcome e s.webhook := by
      simp [dispatchStep, hfetch, processEvent, hsid, hres, hurl, hsend]
    constructor
    · rw [hds, sendWebhook_snd]
      simp [hmem]
    · intro hn
      exact absurd hmem hn
  · have hmem : ¬(e.eventType ∈ subscribedSet s.events ∨
        "All" ∈ subscribedSet s.events) := by
      intro hc
      exact hsend ((shouldSendEvent_iff s.events e.eventType).mpr hc)
    have hds : dispatchStep env e = (markSent e, []) := by
      simp [dispatchStep, hfetch, processEvent, hsid, hres, hurl, hsend]
    constructor
    · rw [hds]
      simp [hmem]
    · intro _
      exact ⟨hds, rfl, rfl⟩

/-- Witness for `delivery_filter` at a concrete subscribed session. -/
theorem delivery_filter_witness :
    isPendingFetch rowMsg = true ∧
    ((dispatchStep env200 rowMsg).2 ≠ [] ↔
      rowMsg.eventType ∈ subscribedSet sampleSession.events ∨
      "All" ∈ subscribedSet sampleSession.events) :=
  ⟨by decide,
   (delivery_filter env200 rowMsg sampleSession (by decide) (by decide)
     (by decide) (by decide)).1⟩

/-- C5 counterexample: a delivery whose HTTP response status is 300 (not a
2xx) is still counted a success: the row is marked sent, no retry-budget
unit is consumed, and exactly one HTTP call was made. -/
theorem non2xx_success_counterexample :
    (dispatchStep env300 rowMsg).1.status = WStatus.sent ∧
    (dispatchStep env300 rowMsg).1.attempts = rowMsg.attempts ∧
    (dispatchStep env300 rowMsg).2.length = 1 ∧
    ¬(200 ≤ 300 ∧ 300 ≤ 299) :=
  ⟨by decide, by decide, by decide, by decide⟩

/-- C5 (amended): a delivery attempt is counted a success, and the row
marked sent, exactly when the HTTP response status is below 400; a
transport error or a status of 400 or above goes through MarkFailed:
attempts is incremented and the row turns failed exactly when attempts
reaches the cap, otherwise staying pending for the next poll. -/
theorem delivery_outcome_policy (env : PollEnv) (e : WebhookEvent) (s : Session)
    (hfetch : isPendingFetch e = true)
    (hsid : e.sessionID ≠ "")
    (hres : env.resolve e.sessionID = some s)
    (hurl : s.webhook ≠ "")
    (hsub : shouldSendEvent s.events e.eventType = true) :
    (dispatchStep env e).2.length = 1 ∧
    (∀ st, env.outcome = SendOutcome.response st →
      ((dispatchStep env e).1 = markSent e ↔ st < 400) ∧
      (400 ≤ st → (dispatchStep env e).1 = markFailed e)) ∧
    (env.outcome = SendOutcome.netError → (dispatchStep env e).1 = markFailed e) ∧
    (markFailed e).attempts = e.attempts + 1 ∧
    ((markFailed e).status = WStatus.failed ↔ e.attempts + 1 = attemptsCap) ∧
    (e.attempts + 1 < attemptsCap →
      (markFailed e).status = WStatus.pending ∧
      isPendingFetch (markFailed e) = true) := by
  have hlt : e.attempts < attemptsCap := ((isPendingFetch_iff e).mp hfetch).2
  have hds : dispatchStep env e = sendWebhook env.outcome e s.webhook := by
    simp [dispatchStep, hfetch, processEvent, hsid, hres, hurl, hsub]
  have hcap := markFailed_cap_policy e hlt
  refine ⟨?_, ?_, ?_, rfl, hcap.1, hcap.2⟩
  · rw [hds, sendWebhook_snd]
    rfl
  · intro st hst
    by_cases h4 : st < 400
    · have hok : sendOk env.outcome = true := by simp [hst, sendOk, h4]
      have hres1 : (dispatchStep env e).1 = markSent e := by
        rw [hds]
        simp [sendWebhook, hok]
      constructor
      · simp [hres1, h4]
      · intro hge
        omega
    · have hok : sendOk env.outcome = false := by simp [hst, sendOk, h4]
      have hres1 : (dispatchStep env e).1 = markFailed e := by
        rw [hds]
        simp [sendWebhook, hok]
      constructor
      · rw [hres1]
        simp [h4, markFailed_ne_markSent e]
      · intro _
        exact hres1
  · intro hnet
    have hok : sendOk env.outcome = false := by simp [hnet, sendOk]
    rw [hds]
    simp [sendWebhook, hok]

/-- Witness for `delivery_outcome_policy` at a transport-error poll. -/
theorem delivery_outcome_policy_witness :
    shouldSendEvent sampleSession.events rowMsg.eventType = true ∧
    (dispatchStep envNet rowMsg).1 = markFailed rowMsg :=
  ⟨by decide,
   (delivery_outcome_policy envNet rowMsg sampleSession (by decide) (by decide)
     (by decide) (by decide) (by decide)).2.2.1 rfl⟩

/-- C8: a delivered webhook is a single HTTP POST to the session's webhook
URL, whose body is the JSON object with keys `event` (the row's event
type), `timestamp` (the row's creation time in unix seconds) and `data`
(the row's payload decoded as JSON), sent with Content-Type
application/json, the fixed User-Agent, and the dispatcher's 10-second
per-attempt timeout. -/
theorem webhook_wire_format (env : PollEnv) (e : WebhookEvent) (s : Session)
    (hfetch : isPendingFetch e = true)
    (hsid : e.sessionID ≠ "")
    (hres : env.resolve e.sessionID = some s)
    (hurl : s.webhook ≠ "")
    (hsub : shouldSendEvent s.events e.eventType = true) :
    (dispatchStep env e).2 =
      [{ method := "POST", url := s.webhook,
         body := Json.obj
           [("event", Json.str e.eventType),
            ("timestamp", Json.num e.createdAt),
            ("data", e.payload)],
         contentType := "application/json",
         userAgent := "FioZap-Webhook/1.0",
         timeoutSeconds := sendTimeoutSeconds }] := by
  have hds : dispatchStep env e = sendWebhook env.outcome e s.webhook := by
    simp [dispatchStep, hfetch, processEvent, hsid, hres, hurl, hsub]
  rw [hds, sendWebhook_snd]
  rfl

/-- Witness for `webhook_wire_format` at the concrete subscribed session. -/
theorem webhook_wire_format_witness :
    isPendingFetch rowMsg = true ∧
    (dispatchStep env200 rowMsg).2 =
      [{ method := "POST", url := sampleSession.webhook,
         body := Json.obj
           [("event", Json.str rowMsg.eventType),
            ("timestamp", Json.num rowMsg.createdAt),
            ("data", rowMsg.payload)],
         contentType := "application/json",
         userAgent := "FioZap-Webhook/1.0",
         timeoutSeconds := sendTimeoutSeconds }] :=
  ⟨by decide,
   webhook_wire_format env200 rowMsg sampleSession (by decide) (by decide)
     (by decide) (by decide) (by decide)⟩

/-! ## Lemmas about the connection registry -/

theorem lookupClient_setClient_self (reg : Registry) (key : String) (h : Handle) :
    lookupClient (setClient reg key h) key = some h := by
  induction reg with
  | nil => simp [setClient, lookupClient]
  | cons p rest ih =>
    obtain ⟨k, h0⟩ := p
    by_cases hk : k = key
    · simp [setClient, hk, lookupClient]
    · simp [setClient, hk, lookupClient, ih]

theorem lookupClient_setClient_ne (reg : Registry) (key key' : String) (h : Handle)
    (hne : key' ≠ key) :
    lookupClient (setClient reg key h) key' = lookupClient reg key' := by
  have hne' : ¬ key = key' := fun hx => hne hx.symm
  induction reg with
  | nil => simp [setClient, lookupClient, hne']
  | cons p rest ih =>
    obtain ⟨k, h0⟩ := p
    by_cases hk : k = key
    · subst hk
      simp [setClient, lookupClient, hne']
    · simp [setClient, hk, lookupClient, ih]

theorem mem_fst_setClient (reg : Registry) (key : String) (h : Handle) (k : String) :
    k ∈ (setClient reg key h).map Prod.fst → k ∈ reg.map Prod.fst ∨ k = key := by
  induction reg with
  | nil =>
    intro hk
    simp only [setClient, List.map_cons, List.map_nil, List.mem_cons,
      List.not_mem_nil, or_false] at hk
    exact Or.inr hk
  | cons p rest ih =>
    obtain ⟨k0, h0⟩ := p
    intro hk
    by_cases hk0 : k0 = key
    · subst hk0
      simp only [setClient, if_true, eq_self_iff_true, List.map_cons, List.mem_cons] at hk
      rw [List.map_cons, List.mem_cons]
      rcases hk with hk | hk
      · exact Or.inr hk
      · exact Or.inl (Or.inr hk)
    · simp only [setClient, if_neg hk0, List.map_cons, List.mem_cons] at hk
      rw [List.map_cons, List.mem_cons]
      rcases hk with hk | hk
      · exact Or.inl (Or.inl hk)
      · rcases ih hk with hik | hik
        · exact Or.inl (Or.inr hik)
        · exact Or.inr hik

theorem setClient_keys_nodup (reg : Registry) (key : String) (h : Handle)
    (hn : (reg.map Prod.fst).Nodup) :
    ((setClient reg key h).map Prod.fst).Nodup := by
  induction reg with
  | nil => simp [setClient]
  | cons p rest ih =>
    obtain ⟨k0, h0⟩ := p
    rw [List.map_cons, List.nodup_cons] at hn
    by_cases hk0 : k0 = key
    · subst hk0
      simpa [setClient] using hn
    · rw [setClient]
      simp only [hk0, if_false, List.map_cons, List.nodup_cons]
      refine ⟨fun hmem => ?_, ih hn.2⟩
      rcases mem_fst_setClient rest key h k0 hmem with hm | hm
      · exact hn.1 hm
      · exact hk0 hm

theorem connect_snd_eq (env : ConnectEnv) (st : ServiceState) (userID : String)
    (sess : Session) :
    (connect env st userID sess).2 =
      connectErr env (lookupClient st.clients (clientKey userID sess.id)) := by
  unfold connect connectErr
  by_cases hc : handleIsConnected (lookupClient st.clients (clientKey userID sess.id))
  · simp [hc]
  · cases hn : env.newClient with
    | none => simp [hc, hn]
    | some h => by_cases hk : env.connectOk <;> simp [hc, hn, hk]

theorem connect_error_unchanged (env : ConnectEnv) (st : ServiceState)
    (userID : String) (sess : Session) (err : ConnectError)
    (herr : (connect env st userID sess).2 = some err) :
    (connect env st userID sess).1 = st := by
  unfold connect at herr ⊢
  by_cases hc : handleIsConnected (lookupClient st.clients (clientKey userID sess.id))
  · simp [hc]
  · simp only [hc, Bool.false_eq_true, if_false] at herr ⊢
    cases hn : env.newClient with
    | none => simp [hn]
    | some h =>
      simp only [hn] at herr ⊢
      by_cases hk : env.connectOk
      · simp [hk] at herr
      · simp [hk]

theorem connect_success (env : ConnectEnv) (st : ServiceState) (userID : String)
    (sess : Session) (h : Handle)
    (hnc : handleIsConnected (lookupClient st.clients (clientKey userID sess.id)) = false)
    (hnew : env.newClient = some h) (hok : env.connectOk = true) :
    connect env st userID sess =
      ({ clients := setClient st.clients (clientKey userID sess.id) h,
         store := if h.loggedIn then
             updateJID (updateConnected st.store sess.id 1) sess.id h.jid
           else updateConnected st.store sess.id 1 }, none) := by
  unfold connect
  simp [hnc, hnew, hok]

theorem connectErr_none_elim (env : ConnectEnv) (existing : Option Handle)
    (h : connectErr env existing = none) :
    handleIsConnected existing = false ∧ env.connectOk = true ∧
      ∃ hh, env.newClient = some hh := by
  unfold connectErr at h
  by_cases hc : handleIsConnected existing
  · simp [hc] at h
  · cases hn : env.newClient with
    | none => simp [hc, hn] at h
    | some hh =>
      simp only [hc, Bool.false_eq_true, if_false, hn] at h
      by_cases hk : env.connectOk
      · exact ⟨by simpa using hc, hk, hh, rfl⟩
      · simp [hk] at h

/-- C3 counterexample: a Connect made while a live handle already exists at
the key — but one that reports not connected — does not fail: it succeeds
and silently replaces the existing handle with the new one. -/
theorem connect_replace_counterexample :
    lookupClient stStale.clients (clientKey "u1" sampleSession.id) = some staleHandle ∧
    (connect envFresh stStale "u1" sampleSession).2 = none ∧
    lookupClient (connect envFresh stStale "u1" sampleSession).1.clients
      (clientKey "u1" sampleSession.id) = some freshHandle ∧
    freshHandle ≠ staleHandle :=
  ⟨by decide, by decide, by decide, by decide⟩

/-- C3 (amended): the registry keeps at most one handle per key (Connect
replaces in place, preserving key uniqueness), but Connect fails only when
the existing handle reports connected; while the registered handle reports
not connected, a successful Connect silently replaces it with the new
handle. -/
theorem connect_single_handle_policy (env : ConnectEnv) (st : ServiceState)
    (userID : String) (sess : Session) (h : Handle)
    (hl : lookupClient st.clients (clientKey userID sess.id) = some h) :
    (h.connected = true →
      connect env st userID sess = (st, some ConnectError.alreadyConnected)) ∧
    (h.connected = false → ∀ h', env.newClient = some h' → env.connectOk = true →
      (connect env st userID sess).2 = none ∧
      lookupClient (connect env st userID sess).1.clients
        (clientKey userID sess.id) = some h') ∧
    ((st.clients.map Prod.fst).Nodup →
      ((connect env st userID sess).1.clients.map Prod.fst).Nodup) := by
  refine ⟨fun hc => ?_, fun hc h' hnew hok => ?_, fun hn => ?_⟩
  · have hic : handleIsConnected
        (lookupClient st.clients (clientKey userID sess.id)) = true := by
      rw [hl]
      simpa [handleIsConnected] using hc
    unfold connect
    simp [hic]
  · have hic : handleIsConnected
        (lookupClient st.clients (clientKey userID sess.id)) = false := by
      rw [hl]
      simpa [handleIsConnected] using hc
    rw [connect_success env st userID sess h' hic hnew hok]
    exact ⟨rfl, lookupClient_setClient_self st.clients (clientKey userID sess.id) h'⟩
  · by_cases hic : handleIsConnected
        (lookupClient st.clients (clientKey userID sess.id))
    · unfold connect
      simp only [hic, if_true]
      exact hn
    · cases hnew : env.newClient with
      | none =>
        unfold connect
        simp only [hic, Bool.false_eq_true, if_false, hnew]
        exact hn
      | some h' =>
        by_cases hok : env.connectOk
        · rw [connect_success env st userID sess h'
            (by simpa using hic) hnew hok]
          exact setClient_keys_nodup st.clients (clientKey userID sess.id) h' hn
        · unfold connect
          simp only [hic, Bool.false_eq_true, if_false, hnew, hok]
          exact hn

/-- Witness for `connect_single_handle_policy`: the stale-handle state. -/
theorem connect_single_handle_policy_witness :
    lookupClient stStale.clients (clientKey "u1" sampleSession.id) = some staleHandle ∧
    (connect envFresh stStale "u1" sampleSession).2 = none :=
  ⟨by decide,
   ((connect_single_handle_policy envFresh stStale "u1" sampleSession staleHandle
      (by decide)).2.1 (by decide) freshHandle (by decide) (by decide)).1⟩

/-- C6: Connect on a key whose registered handle reports connected returns
the AlreadyConnected error, creates no second handle, and leaves the
registry table and session store unchanged. -/
theorem connect_already_connected (env : ConnectEnv) (st : ServiceState)
    (userID : String) (sess : Session) (h : Handle)
    (hl : lookupClient st.clients (clientKey userID sess.id) = some h)
    (hc : h.connected = true) :
    connect env st userID sess = (st, some ConnectError.alreadyConnected) ∧
    (connect env st userID sess).1.clients = st.clients ∧
    (connect env st userID sess).1.store = st.store := by
  have hic : handleIsConnected
      (lookupClient st.clients (clientKey userID sess.id)) = true := by
    rw [hl]
    simpa [handleIsConnected] using hc
  have h1 : connect env st userID sess = (st, some ConnectError.alreadyConnected) := by
    unfold connect
    simp [hic]
  exact ⟨h1, by rw [h1], by rw [h1]⟩

/-- Witness for `connect_already_connected` at the live-handle state. -/
theorem connect_already_connected_witness :
    lookupClient stLive.clients (clientKey "u1" sampleSession.id) = some liveHandle ∧
    connect envFresh stLive "u1" sampleSession =
      (stLive, some ConnectError.alreadyConnected) :=
  ⟨by decide,
   (connect_already_connected envFresh stLive "u1" sampleSession liveHandle
     (by decide) (by decide)).1⟩

/-- C10: whenever Connect returns an error — already connected, client
construction failed, or the adapter's connect call failed — the whole
observable state is unchanged: the registry stores no handle and neither
the connected flag nor the protocol identity is written. -/
theorem connect_error_no_state_change (env : ConnectEnv) (st : ServiceState)
    (userID : String) (sess : Session) (err : ConnectError)
    (herr : (connect env st userID sess).2 = some err) :
    (connect env st userID sess).1 = st ∧
    (connect env st userID sess).1.clients = st.clients ∧
    (connect env st userID sess).1.store = st.store := by
  have h1 := connect_error_unchanged env st userID sess err herr
  exact ⟨h1, by rw [h1], by rw [h1]⟩

/-- Witness for `connect_error_no_state_change`: failed client creation. -/
theorem connect_error_no_state_change_witness :
    (connect envNoClient stEmpty "u1" sampleSession).2 =
      some ConnectError.createClientFailed ∧
    (connect envNoClient stEmpty "u1" sampleSession).1 = stEmpty :=
  ⟨by decide,
   (connect_error_no_state_change envNoClient stEmpty "u1" sampleSession
     ConnectError.createClientFailed (by decide)).1⟩

/-- C7: with a dispatcher configured and the insert succeeding, the event
router appends exactly one new outbox row, pending with zero attempts,
carrying owner, session, event type and payload verbatim; the session-store
projection updates (JID on a Connected event carrying a jid, connected
cleared on Disconnected/LoggedOut) are applied and do not depend on the
dispatcher being configured or on the insert's outcome. -/
theorem router_event_effects (disp ins : Bool) (id : Nat) (now : Int)
    (userID sessionID eventType : String) (payload : Json) (st : RouterState)
    (hd : disp = true) (hi : ins = true) :
    (handleEvent disp ins id now userID sessionID eventType payload st).outbox =
      st.outbox ++ [mkPendingRow id userID sessionID eventType payload now] ∧
    (mkPendingRow id userID sessionID eventType payload now).status = WStatus.pending ∧
    (mkPendingRow id userID sessionID eventType payload now).attempts = 0 ∧
    (∀ d' i' : Bool,
      (handleEvent d' i' id now userID sessionID eventType payload st).store =
        (handleEvent disp ins id now userID sessionID eventType payload st).store) ∧
    (∀ j, eventType = "Connected" → jidOf payload = some j →
      (handleEvent disp ins id now userID sessionID eventType payload st).store =
        updateJID st.store sessionID j) ∧
    (eventType = "Disconnected" ∨ eventType = "LoggedOut" →
      (handleEvent disp ins id now userID sessionID eventType payload st).store =
        updateConnected st.store sessionID 0) := by
  subst hd hi
  refine ⟨by simp [handleEvent], rfl, rfl, fun d' i' => rfl, fun j hc hj => ?_, fun hde => ?_⟩
  · subst hc
    simp [handleEvent, hj]
  · rcases hde with hde | hde <;> subst hde <;> simp [handleEvent]

/-- Witness for `router_event_effects` at a Disconnected event. -/
theorem router_event_effects_witness :
    (handleEvent true true 9 5 "u1" "s1" "Disconnected" Json.null
        { outbox := [], store := [sampleSession] }).outbox =
      [] ++ [mkPendingRow 9 "u1" "s1" "Disconnected" Json.null 5] ∧
    (handleEvent true true 9 5 "u1" "s1" "Disconnected" Json.null
        { outbox := [], store := [sampleSession] }).store =
      updateConnected [sampleSession] "s1" 0 :=
  ⟨(router_event_effects true true 9 5 "u1" "s1" "Disconnected" Json.null
      { outbox := [], store := [sampleSession] } rfl rfl).1,
   (router_event_effects true true 9 5 "u1" "s1" "Disconnected" Json.null
      { outbox := [], store := [sampleSession] } rfl rfl).2.2.2.2.2 (Or.inl rfl)⟩

/-! ## Lemmas about ReconnectAll -/

theorem updateConnected_cons (s : Session) (rest : Store) (id : String) (c : Nat) :
    updateConnected (s :: rest) id c =
      (if s.id = id then { s with connected := c } else s) ::
        updateConnected rest id c := rfl

theorem updateJID_cons (s : Session) (rest : Store) (id j : String) :
    updateJID (s :: rest) id j =
      (if s.id = id then { s with jid := j } else s) :: updateJID rest id j := rfl

theorem rowOf_updateConnected_self (store : Store) (id : String) (c : Nat) :
    rowOf (updateConnected store id c) id =
      (rowOf store id).map (fun s => { s with connected := c }) := by
  induction store with
  | nil => rfl
  | cons s rest ih =>
    rw [updateConnected_cons]
    by_cases hs : s.id = id
    · simp [rowOf, hs]
    · simp [rowOf, hs, ih]

theorem rowOf_updateJID_self (store : Store) (id j : String) :
    rowOf (updateJID store id j) id =
      (rowOf store id).map (fun s => { s with jid := j }) := by
  induction store with
  | nil => rfl
  | cons s rest ih =>
    rw [updateJID_cons]
    by_cases hs : s.id = id
    · simp [rowOf, hs]
    · simp [rowOf, hs, ih]

theorem rowOf_updateConnected_ne (store : Store) (id id' : String) (c : Nat)
    (hne : id' ≠ id) :
    rowOf (updateConnected store id c) id' = rowOf store id' := by
  induction store with
  | nil => rfl
  | cons s rest ih =>
    rw [updateConnected_cons]
    by_cases hs2 : s.id = id'
    · have hs : ¬ s.id = id := by
        rw [hs2]
        exact hne
      rw [if_neg hs]
      simp [rowOf, hs2]
    · by_cases hs : s.id = id
      · rw [if_pos hs]
        simp [rowOf, hs2, ih]
      · rw [if_neg hs]
        simp [rowOf, hs2, ih]

theorem rowOf_updateJID_ne (store : Store) (id id' j : String)
    (hne : id' ≠ id) :
    rowOf (updateJID store id j) id' = rowOf store id' := by
  induction store with
  | nil => rfl
  | cons s rest ih =>
    rw [updateJID_cons]
    by_cases hs2 : s.id = id'
    · have hs : ¬ s.id = id := by
        rw [hs2]
        exact hne
      rw [if_neg hs]
      simp [rowOf, hs2]
    · by_cases hs : s.id = id
      · rw [if_pos hs]
        simp [rowOf, hs2, ih]
      · rw [if_neg hs]
        simp [rowOf, hs2, ih]

/-- One ReconnectAll attempt for one session touches only that session's
registry key and store row. -/
theorem reconnectStep_frame (envf : String → ConnectEnv) (st : ServiceState)
    (sess : Session) (key id : String)
    (hk : key ≠ clientKey sess.userID sess.id) (hid : id ≠ sess.id) :
    lookupClient (reconnectStep envf st sess).clients key =
      lookupClient st.clients key ∧
    rowOf (reconnectStep envf st sess).store id = rowOf st.store id := by
  have hsnd := connect_snd_eq (envf sess.id) st sess.userID sess
  cases hce : connectErr (envf sess.id)
      (lookupClient st.clients (clientKey sess.userID sess.id)) with
  | some err =>
    have herr : (connect (envf sess.id) st sess.userID sess).2 = some err := by
      rw [hsnd, hce]
    have hst := connect_error_unchanged (envf sess.id) st sess.userID sess err herr
    simp only [reconnectStep, herr]
    rw [hst]
    exact ⟨rfl, rowOf_updateConnected_ne st.store sess.id id 0 hid⟩
  | none =>
    have hce' : connectErr (envf sess.id)
        (lookupClient st.clients (clientKey sess.userID sess.id)) = none := hce
    obtain ⟨hnc, hok, hh, hnew⟩ := connectErr_none_elim _ _ hce'
    have hconn := connect_success (envf sess.id) st sess.userID sess hh hnc hnew hok
    simp only [reconnectStep, hconn]
    constructor
    · exact lookupClient_setClient_ne st.clients (clientKey sess.userID sess.id)
        key hh hk
    · by_cases hlog : hh.loggedIn
      · simp only [hlog, if_true]
        rw [rowOf_updateJID_ne _ _ _ _ hid, rowOf_updateConnected_ne _ _ _ _ hid]
      · simp only [hlog, Bool.false_eq_true, if_false]
        rw [rowOf_updateConnected_ne _ _ _ _ hid]

/-- One ReconnectAll attempt for a session, seen at that session's own key
and row: the registry entry and store row end as `reconnectOutcomeClient` /
`reconnectOutcomeRow` of its adapter outcome and prior registry entry. -/
theorem reconnectStep_self (envf : String → ConnectEnv) (st : ServiceState)
    (sess : Session) :
    lookupClient (reconnectStep envf st sess).clients
        (clientKey sess.userID sess.id) =
      reconnectOutcomeClient (envf sess.id)
        (lookupClient st.clients (clientKey sess.userID sess.id)) ∧
    rowOf (reconnectStep envf st sess).store sess.id =
      (rowOf st.store sess.id).map
        (reconnectOutcomeRow (envf sess.id)
          (lookupClient st.clients (clientKey sess.userID sess.id))) := by
  have hsnd := connect_snd_eq (envf sess.id) st sess.userID sess
  cases hce : connectErr (envf sess.id)
      (lookupClient st.clients (clientKey sess.userID sess.id)) with
  | some err =>
    have herr : (connect (envf sess.id) st sess.userID sess).2 = some err := by
      rw [hsnd, hce]
    have hst := connect_error_unchanged (envf sess.id) st sess.userID sess err herr
    simp only [reconnectStep, herr, reconnectOutcomeClient, hce]
    rw [hst]
    refine ⟨rfl, ?_⟩
    rw [rowOf_updateConnected_self]
    cases rowOf st.store sess.id with
    | none => rfl
    | some r => simp [reconnectOutcomeRow, hce]
  | none =>
    have hce' : connectErr (envf sess.id)
        (lookupClient st.clients (clientKey sess.userID sess.id)) = none := hce
    obtain ⟨hnc, hok, hh, hnew⟩ := connectErr_none_elim _ _ hce'
    have hconn := connect_success (envf sess.id) st sess.userID sess hh hnc hnew hok
    simp only [reconnectStep, hconn, reconnectOutcomeClient, hce, hnew]
    constructor
    · exact lookupClient_setClient_self st.clients (clientKey sess.userID sess.id) hh
    · by_cases hlog : hh.loggedIn
      · simp only [hlog, if_true]
        rw [rowOf_updateJID_self, rowOf_updateConnected_self]
        cases rowOf st.store sess.id with
        | none => rfl
        | some r => simp [reconnectOutcomeRow, hce, hnew, hlog]
      · simp only [hlog, Bool.false_eq_true, if_false]
        rw [rowOf_updateConnected_self]
        cases rowOf st.store sess.id with
        | none => rfl
        | some r => simp [reconnectOutcomeRow, hce, hnew, hlog]

/-- A fold of ReconnectAll attempts over sessions whose keys and ids all
differ from the observed ones leaves the observed projections unchanged. -/
theorem reconnectFold_frame (envf : String → ConnectEnv) (L : List Session)
    (st : ServiceState) (key id : String)
    (h : ∀ b ∈ L, key ≠ clientKey b.userID b.id ∧ id ≠ b.id) :
    lookupClient (L.foldl (reconnectStep envf) st).clients key =
      lookupClient st.clients key ∧
    rowOf (L.foldl (reconnectStep envf) st).store id = rowOf st.store id := by
  induction L generalizing st with
  | nil => exact ⟨rfl, rfl⟩
  | cons b rest ih =>
    rw [List.foldl_cons]
    have hb := h b (List.mem_cons_self b rest)
    have hstep := reconnectStep_frame envf st b key id hb.1 hb.2
    have hrest := ih (reconnectStep envf st b)
      (fun b' hb' => h b' (List.mem_cons_of_mem b hb'))
    exact ⟨hrest.1.trans hstep.1, hrest.2.trans hstep.2⟩

/-- A session's final projections after a fold of ReconnectAll attempts over
a duplicate-free session list containing it are determined by its own
adapter outcome and its own initial registry entry. -/
theorem reconnectFold_proj (envf : String → ConnectEnv) (L : List Session)
    (st : ServiceState) (s : Session) (hs : s ∈ L)
    (hdist : L.Pairwise (fun a b => a.id ≠ b.id ∧
      clientKey a.userID a.id ≠ clientKey b.userID b.id)) :
    lookupClient (L.foldl (reconnectStep envf) st).clients
        (clientKey s.userID s.id) =
      reconnectOutcomeClient (envf s.id)
        (lookupClient st.clients (clientKey s.userID s.id)) ∧
    rowOf (L.foldl (reconnectStep envf) st).store s.id =
      (rowOf st.store s.id).map
        (reconnectOutcomeRow (envf s.id)
          (lookupClient st.clients (clientKey s.userID s.id))) := by
  induction L generalizing st with
  | nil => cases hs
  | cons b rest ih =>
    rw [List.foldl_cons]
    rw [List.pairwise_cons] at hdist
    rcases List.mem_cons.mp hs with hsb | hsrest
    · subst hsb
      have hframe := reconnectFold_frame envf rest (reconnectStep envf st s)
        (clientKey s.userID s.id) s.id
        (fun b' hb' => ⟨(hdist.1 b' hb').2, (hdist.1 b' hb').1⟩)
      have hself := reconnectStep_self envf st s
      exact ⟨hframe.1.trans hself.1, hframe.2.trans hself.2⟩
    · have hrel := hdist.1 s hsrest
      have hstep := reconnectStep_frame envf st b (clientKey s.userID s.id) s.id
        (fun hx => hrel.2 hx.symm) (fun hx => hrel.1 hx.symm)
      have hih := ih (reconnectStep envf st b) hsrest hdist.2
      rw [hstep.1, hstep.2] at hih
      exact hih

/-- C9: ReconnectAll attempts one Connect per session persisted with
connected = 1; each such session's final registry entry and store row are
a function of its own adapter outcome and its own prior registry entry
alone — so one session's failure cannot prevent or alter another's
reconnection — and a session whose Connect attempt errors ends with its
connected flag cleared. -/
theorem reconnectAll_isolation (envf : String → ConnectEnv) (st : ServiceState)
    (s : Session) (hs : s ∈ connectedSessions st.store)
    (hdist : (connectedSessions st.store).Pairwise (fun a b => a.id ≠ b.id ∧
      clientKey a.userID a.id ≠ clientKey b.userID b.id)) :
    s.connected = 1 ∧
    lookupClient (reconnectAll envf st).clients (clientKey s.userID s.id) =
      reconnectOutcomeClient (envf s.id)
        (lookupClient st.clients (clientKey s.userID s.id)) ∧
    rowOf (reconnectAll envf st).store s.id =
      (rowOf st.store s.id).map
        (reconnectOutcomeRow (envf s.id)
          (lookupClient st.clients (clientKey s.userID s.id))) ∧
    (∀ err, connectErr (envf s.id)
        (lookupClient st.clients (clientKey s.userID s.id)) = some err →
      (rowOf (reconnectAll envf st).store s.id).map Session.connected =
        (rowOf st.store s.id).map (fun _ => 0)) ∧
    (∀ envf' : String → ConnectEnv, envf' s.id = envf s.id →
      lookupClient (reconnectAll envf' st).clients (clientKey s.userID s.id) =
        lookupClient (reconnectAll envf st).clients (clientKey s.userID s.id) ∧
      rowOf (reconnectAll envf' st).store s.id =
        rowOf (reconnectAll envf st).store s.id) := by
  have hconn : s.connected = 1 := by
    have hm := List.mem_filter.mp hs
    simpa using hm.2
  have hproj := reconnectFold_proj envf (connectedSessions st.store) st s hs hdist
  refine ⟨hconn, hproj.1, hproj.2, fun err herr => ?_, fun envf' hagree => ?_⟩
  · simp only [reconnectAll]
    rw [hproj.2]
    cases rowOf st.store s.id with
    | none => rfl
    | some r => simp [reconnectOutcomeRow, herr]
  · have hproj' := reconnectFold_proj envf' (connectedSessions st.store) st s hs hdist
    simp only [reconnectAll]
    rw [hproj'.1, hproj'.2, hproj.1, hproj.2, hagree]
    exact ⟨rfl, rfl⟩

/-- Witness for `reconnectAll_isolation`: session "a" fails to reconnect,
session "b" succeeds; session "b" still ends connected. -/
theorem reconnectAll_isolation_witness :
    wsess2 ∈ connectedSessions wstate.store ∧
    rowOf (reconnectAll wenvf wstate).store wsess2.id =
      (rowOf wstate.store wsess2.id).map
        (reconnectOutcomeRow (wenvf wsess2.id)
          (lookupClient wstate.clients (clientKey wsess2.userID wsess2.id))) :=
  ⟨by decide,
   (reconnectAll_isolation wenvf wstate wsess2 (by decide) (by decide)).2.2.1⟩

end FioZap
